import Mathlib

/-!
Verification of the two command-line utilities in this repository
(`aws_check.py` and `aws_metrics.py`) against their specification.

The scripts are thin orchestration layers around an external CLI binary.
The shallow embedding models the external world as oracles:

* subprocess invocation: an `Oracle` mapping the argument vector (the part
  after the leading `"aws"`) and the timeout (in seconds) to a
  `SubprocessOutcome` — normal completion with an exit code and captured
  output, a raised `subprocess.TimeoutExpired`, or a raised
  `FileNotFoundError`;
* JSON parsing (`json.loads` from the standard library): a function
  `String → Except Unit Json`, `.error` meaning `json.JSONDecodeError`;
* the clock, environment variables, `shutil.which`, and the contents of the
  configuration files: explicit parameters.

Printing is modelled as an accumulated list of `Line`s (one per `print`
call; the colour-code prefixes of `print_success`/`print_error`/… are
reflected in the constructor used).  Each `run_aws_command` invocation is
recorded in a call trace.  Python exceptions that the scripts do not catch
are modelled by the `.exc` constructor of `PyRes`.
-/

namespace AwsToolkit

/-- One printed line.  `header` stands for the three lines emitted by
`print_header`; `success`/`error`/`warning`/`info` for the correspondingly
coloured helpers; `raw` for a bare `print`. -/
inductive Line where
  | header (s : String)
  | success (s : String)
  | error (s : String)
  | warning (s : String)
  | info (s : String)
  | raw (s : String)
deriving DecidableEq

/-- `CommandResult` dataclass shared by both scripts. -/
structure CommandResult where
  success : Bool
  stdout : String
  stderr : String
  returncode : Int
deriving DecidableEq

/-- What the external `subprocess.run(["aws"] + args, …)` call does:
either it completes with an exit code and captured stdout/stderr, or it
raises `subprocess.TimeoutExpired`, or it raises `FileNotFoundError`. -/
inductive SubprocessOutcome where
  | completed (returncode : Int) (stdout : String) (stderr : String)
  | timeoutExpired
  | fileNotFound
deriving DecidableEq

/-- The external world seen through `subprocess.run`: argument vector
(after the leading `"aws"`) and timeout in seconds determine the outcome. -/
def Oracle := List String → Nat → SubprocessOutcome

/-- `run_aws_command` (identical in both scripts except for the default
timeout, 30 s in `aws_check.py` and 60 s in `aws_metrics.py`; call sites
below pass the effective timeout explicitly). -/
def run_aws_command (world : Oracle) (args : List String) (timeout : Nat) :
    CommandResult :=
  match world args timeout with
  | .completed rc out err =>
      { success := rc == 0, stdout := out, stderr := err, returncode := rc }
  | .timeoutExpired =>
      { success := false, stdout := "", stderr := "Command timed out", returncode := -1 }
  | .fileNotFound =>
      { success := false, stdout := "", stderr := "AWS CLI not found", returncode := -1 }

/-- A Python exception that the scripts may leave uncaught:
`json.JSONDecodeError` (the only one they ever catch) or any other
runtime exception (`AttributeError`, `TypeError`, `ValueError`, …). -/
inductive PyExc where
  | jsonDecode
  | other (msg : String)
deriving DecidableEq

/-- Result of running a fragment of script code: a value (or an uncaught
exception) together with the `run_aws_command` invocations made and the
lines printed so far. -/
inductive PyRes (α : Type) where
  | ok (v : α) (calls : List (List String)) (out : List Line)
  | exc (e : PyExc) (calls : List (List String)) (out : List Line)

def PyRes.prepend {α : Type} (c : List (List String)) (o : List Line) :
    PyRes α → PyRes α
  | .ok v c' o' => .ok v (c ++ c') (o ++ o')
  | .exc e c' o' => .exc e (c ++ c') (o ++ o')

def PyRes.bind {α β : Type} (x : PyRes α) (f : α → PyRes β) : PyRes β :=
  match x with
  | .ok v c o => (f v).prepend c o
  | .exc e c o => .exc e c o

instance : Monad PyRes where
  pure v := .ok v [] []
  bind := PyRes.bind

@[simp] theorem PyRes.prepend_ok {α : Type} (c : List (List String)) (o : List Line)
    (v : α) (c' : List (List String)) (o' : List Line) :
    PyRes.prepend c o (.ok v c' o') = .ok v (c ++ c') (o ++ o') := rfl

@[simp] theorem PyRes.prepend_exc {α : Type} (c : List (List String)) (o : List Line)
    (e : PyExc) (c' : List (List String)) (o' : List Line) :
    PyRes.prepend c o (.exc e c' o' : PyRes α) = .exc e (c ++ c') (o ++ o') := rfl

@[simp] theorem PyRes.bind_eq {α β : Type} (x : PyRes α) (f : α → PyRes β) :
    x >>= f = PyRes.bind x f := rfl

@[simp] theorem PyRes.bind_ok {α β : Type} (v : α) (c : List (List String))
    (o : List Line) (f : α → PyRes β) :
    PyRes.bind (.ok v c o) f = (f v).prepend c o := rfl

@[simp] theorem PyRes.bind_exc {α β : Type} (e : PyExc) (c : List (List String))
    (o : List Line) (f : α → PyRes β) :
    PyRes.bind (.exc e c o) f = .exc e c o := rfl

@[simp] theorem PyRes.pure_eq {α : Type} (v : α) :
    (pure v : PyRes α) = .ok v [] [] := rfl

/-- Emit one printed line. -/
def emit (l : Line) : PyRes Unit := .ok () [] [l]

/-- The three lines printed by `print_header` (collapsed into one `Line`). -/
def emitHeader (s : String) : PyRes Unit := emit (.header s)

/-- Raise a Python exception. -/
def pyRaise {α : Type} (e : PyExc) : PyRes α := .exc e [] []

/-- `try: body except json.JSONDecodeError: handler` — catches exactly
`jsonDecode`, keeping the calls made and output printed before the raise;
every other exception propagates. -/
def pyTry {α : Type} (body : PyRes α) (handler : PyRes α) : PyRes α :=
  match body with
  | .exc .jsonDecode c o => handler.prepend c o
  | r => r

/-- `for x in xs: body` in sequence. -/
def pyForM {α : Type} : List α → (α → PyRes Unit) → PyRes Unit
  | [], _ => pure ()
  | x :: xs, f => PyRes.bind (f x) (fun _ => pyForM xs f)

/-- `[f x for x in xs]` where `f` may raise. -/
def pyMapM {α β : Type} : List α → (α → PyRes β) → PyRes (List β)
  | [], _ => pure []
  | x :: xs, f =>
      PyRes.bind (f x) (fun y => PyRes.bind (pyMapM xs f) (fun ys => pure (y :: ys)))

/-- Python values decoded from JSON (numbers collapsed to `Int`; the
scripts never compute with JSON numbers, they only print them). -/
inductive Json where
  | null
  | bool (b : Bool)
  | num (n : Int)
  | str (s : String)
  | arr (xs : List Json)
  | obj (fields : List (String × Json))

/-- Python truthiness of a decoded JSON value. -/
def pyTruthy : Json → Bool
  | .null => false
  | .bool b => b
  | .num n => n != 0
  | .str s => s ≠ ""
  | .arr xs => !xs.isEmpty
  | .obj fs => !fs.isEmpty

/-- Python iteration over a decoded JSON value: lists yield their
elements, strings their characters, dicts their keys; everything else
raises `TypeError`. -/
def pyIterR : Json → PyRes (List Json)
  | .arr xs => pure xs
  | .str s => pure (s.toList.map (fun c => Json.str (String.mk [c])))
  | .obj fs => pure (fs.map (fun p => Json.str p.1))
  | _ => pyRaise (.other "TypeError")

/-- `x.get(key, default)`: works on dicts, raises `AttributeError`
otherwise. -/
def pyGet (j : Json) (key : String) (deflt : Json) : PyRes Json :=
  match j with
  | .obj fs => pure ((fs.lookup key).getD deflt)
  | _ => pyRaise (.other "AttributeError")

/-- Using a decoded value where a `str` is required (`x.split`,
interpolation into a subprocess argument): raises `AttributeError` on
anything that is not a string. -/
def pyAsString : Json → PyRes String
  | .str s => pure s
  | _ => pyRaise (.other "AttributeError")

/-- `a, b = x` — unpack an iterable of exactly two elements. -/
def pyUnpack2 (j : Json) : PyRes (Json × Json) :=
  PyRes.bind (pyIterR j) (fun xs =>
    match xs with
    | [a, b] => pure (a, b)
    | _ => pyRaise (.other "ValueError"))

/-- `a, b, c = x` — unpack an iterable of exactly three elements. -/
def pyUnpack3 (j : Json) : PyRes (Json × Json × Json) :=
  PyRes.bind (pyIterR j) (fun xs =>
    match xs with
    | [a, b, c] => pure (a, b, c)
    | _ => pyRaise (.other "ValueError"))

/-- `str(x)` as used in the f-string report lines.  Containers are
abbreviated: the scripts only ever interpolate scalars in practice, and no
claim inspects these lines. -/
def pyToStr : Json → String
  | .null => "None"
  | .bool true => "True"
  | .bool false => "False"
  | .num n => toString n
  | .str s => s
  | .arr _ => "[...]"
  | .obj _ => "dict"

/-- `json.loads` through the parsing oracle; `.error` is
`json.JSONDecodeError`. -/
def loads (jload : String → Except Unit Json) (s : String) : PyRes Json :=
  match jload s with
  | .ok j => pure j
  | .error _ => pyRaise .jsonDecode

/-- Python `str.strip()` on a character list (C locale whitespace is all
the scripts ever meet). -/
def pyCharSpace (c : Char) : Bool :=
  c = ' ' ∨ c = '\t' ∨ c = '\n' ∨ c = '\r' ∨ c = '\x0b' ∨ c = '\x0c'

def pyStrip (s : List Char) : List Char :=
  ((s.dropWhile pyCharSpace).reverse.dropWhile pyCharSpace).reverse

def pyStripS (s : String) : String := (pyStrip s.toList).asString

/-- Python `s.replace(old, new)` for a non-empty `old`: replace all
non-overlapping occurrences, scanning left to right. -/
def pyReplace (s old new : List Char) : List Char :=
  match s with
  | [] => []
  | c :: rest =>
      if h : old ≠ [] ∧ old.isPrefixOf (c :: rest) then
        new ++ pyReplace ((c :: rest).drop old.length) old new
      else
        c :: pyReplace rest old new
termination_by s.length
decreasing_by
  · have h1 : 0 < old.length := List.length_pos.mpr h.1
    simp only [List.length_drop, List.length_cons]
    omega
  · simp

/-- Python `s.split(sep, 1)` for a single-character separator: at most one
split, at the first occurrence. -/
def pySplit1 : List Char → Char → List (List Char)
  | [], _ => [[]]
  | c :: rest, sep =>
      if c = sep then [[], rest]
      else
        match pySplit1 rest sep with
        | [x] => [(c :: x)]
        | [x, y] => [(c :: x), y]
        | other => other

/-- Python `s.split("/")[-1]` on an honest string. -/
def lastSlashComponent (s : String) : String :=
  (s.splitOn "/").getLastD s

/-- Truthiness of an `Optional[str]` (`None` and `""` are falsy). -/
def optStrTruthy : Option String → Bool
  | none => false
  | some s => s ≠ ""

/-- `x[:10]` — slicing a decoded JSON value (lists and strings only). -/
def pySlice10 : Json → PyRes (List Json)
  | .arr xs => pure (xs.take 10)
  | .str s => pure ((s.toList.take 10).map (fun c => Json.str (String.mk [c])))
  | _ => pyRaise (.other "TypeError")

/-- `len(x)` on a decoded JSON value. -/
def pyLen : Json → PyRes Nat
  | .arr xs => pure xs.length
  | .str s => pure s.length
  | .obj fs => pure fs.length
  | _ => pyRaise (.other "TypeError")

/-! ## `aws_check.py` -/

/-- The ambient state read by `aws_check.py`: `shutil.which("aws")`, the
environment variables it displays, the two configuration files (as lists
of raw lines, still carrying their whitespace), the subprocess world and
the JSON parser.  `hasAccessKeyId`/`hasSecretAccessKey` are the
truthiness of `os.environ.get` for the two masked variables. -/
structure CheckEnv where
  awsPath : Option String
  envProfile : Option String
  envDefaultRegion : Option String
  hasAccessKeyId : Bool
  hasSecretAccessKey : Bool
  configFile : Option (List (List Char))
  credentialsFile : Option (List (List Char))
  world : Oracle
  jload : String → Except Unit Json

/-- A value plus the calls made and lines printed — the result shape of the
script functions that cannot raise. -/
structure Eff (α : Type) where
  val : α
  calls : List (List String)
  out : List Line

def Eff.run {α : Type} (e : Eff α) : PyRes α := .ok e.val e.calls e.out

/-- `run_aws_command` from inside `aws_check.py` (default timeout 30 s),
recording the invocation in the call trace. -/
def callAws (env : CheckEnv) (args : List String) : PyRes CommandResult :=
  .ok (run_aws_command env.world args 30) [args] []

def versionCmd : List String := ["--version"]

/-- `check_cli_installed`. -/
def check_cli_installed (env : CheckEnv) : Eff Bool :=
  let hdr := [Line.header "AWS CLI Installation"]
  match env.awsPath with
  | none =>
      ⟨false, [],
        hdr ++ [.error "AWS CLI not found in PATH", .raw "\nInstall with:",
          .raw "  macOS:  brew install awscli",
          .raw "  Linux:  curl 'https://awscli.amazonaws.com/awscli-exe-linux-x86_64.zip' -o 'awscliv2.zip'"]⟩
  | some aws_path =>
      let r := run_aws_command env.world versionCmd 30
      if r.success then
        ⟨true, [versionCmd],
          hdr ++ [.success ("AWS CLI installed: " ++ pyStripS r.stdout),
            .info ("Path: " ++ aws_path)]⟩
      else
        ⟨false, [versionCmd],
          hdr ++ [.error ("Failed to get AWS CLI version: " ++ r.stderr)]⟩

def identityCmd : List String := ["sts", "get-caller-identity", "--output", "json"]

def regionCmd : List String := ["configure", "get", "region"]

/-- `check_identity`. -/
def check_identity (env : CheckEnv) : PyRes Bool := do
  emitHeader "AWS Identity"
  let r ← callAws env identityCmd
  if !r.success then do
    emit (.error "Failed to get caller identity")
    emit (.raw r.stderr)
    emit (.raw "\nCheck your credentials:")
    emit (.raw "  aws configure")
    emit (.raw "  aws configure --profile <profile-name>")
    pure false
  else
    pyTry
      (do
        let identity ← loads env.jload r.stdout
        emit (.success "Authenticated successfully")
        let a ← pyGet identity "Account" (.str "N/A")
        emit (.info ("Account:  " ++ pyToStr a))
        let arn ← pyGet identity "Arn" (.str "N/A")
        emit (.info ("ARN:      " ++ pyToStr arn))
        let uid ← pyGet identity "UserId" (.str "N/A")
        emit (.info ("User ID:  " ++ pyToStr uid))
        (if optStrTruthy env.envProfile then
          emit (.info ("Profile:  " ++ env.envProfile.getD ""))
        else pure ())
        let rr ← callAws env regionCmd
        let region := if rr.success then pyStripS rr.stdout else "not set"
        emit (.info ("Region:   " ++ region))
        pure true)
      (do
        emit (.error "Invalid JSON response from AWS CLI")
        pure false)

/-- The ten required permission probes of `check_permissions`, in loop
order. -/
def requiredTests : List (String × List String) := [
  ("ecs:ListClusters", ["ecs", "list-clusters", "--max-results", "1"]),
  ("ec2:DescribeInstances", ["ec2", "describe-instances", "--max-results", "1"]),
  ("ec2:DescribeRegions", ["ec2", "describe-regions", "--max-results", "1"]),
  ("lambda:ListFunctions", ["lambda", "list-functions", "--max-items", "1"]),
  ("cloudwatch:DescribeAlarms", ["cloudwatch", "describe-alarms", "--max-records", "1"]),
  ("cloudwatch:ListMetrics", ["cloudwatch", "list-metrics", "--namespace", "AWS/EC2"]),
  ("rds:DescribeDBInstances", ["rds", "describe-db-instances", "--max-records", "1"]),
  ("elbv2:DescribeLoadBalancers", ["elbv2", "describe-load-balancers", "--page-size", "1"]),
  ("s3:ListBuckets", ["s3api", "list-buckets"]),
  ("sts:GetCallerIdentity", ["sts", "get-caller-identity"])]

/-- The four optional permission probes of `check_permissions`. -/
def optionalTests : List (String × List String) := [
  ("ce:GetCostAndUsage",
    ["ce", "get-cost-and-usage", "--time-period", "Start=2024-01-01,End=2024-01-02",
     "--granularity", "DAILY", "--metrics", "BlendedCost"]),
  ("securityhub:GetFindings", ["securityhub", "get-findings", "--max-results", "1"]),
  ("guardduty:ListDetectors", ["guardduty", "list-detectors", "--max-results", "1"]),
  ("elasticbeanstalk:DescribeEnvironments",
    ["elasticbeanstalk", "describe-environments", "--max-records", "1"])]

/-- `check_permissions`: probes the ten required and four optional
permissions, prints a line per probe and a summary, and returns
`failed == 0` where `failed` counts the required probes that failed. -/
def check_permissions (env : CheckEnv) : Eff Bool :=
  let ok := fun (p : String × List String) => (run_aws_command env.world p.2 30).success
  let passed := requiredTests.countP (fun p => ok p)
  let failed := requiredTests.countP (fun p => !ok p)
  { val := failed == 0,
    calls := requiredTests.map Prod.snd ++ optionalTests.map Prod.snd,
    out := [Line.header "Dash Monitoring Permissions"]
      ++ requiredTests.map (fun p => if ok p then Line.success p.1 else Line.error p.1)
      ++ [Line.raw "", Line.info "Optional permissions (may require service activation):"]
      ++ optionalTests.map (fun p =>
            if ok p then Line.success p.1
            else Line.warning (p.1 ++ " (not available or not enabled)"))
      ++ [Line.raw "",
          Line.raw ("Required permissions: " ++ toString passed ++ " passed, "
            ++ toString failed ++ " failed")] }

def ecsClustersCmd : List String :=
  ["ecs", "list-clusters", "--query", "clusterArns[*]", "--output", "json"]

def ecsListServicesCmd (cluster : String) : List String :=
  ["ecs", "list-services", "--cluster", cluster, "--query", "serviceArns[*]",
   "--output", "json"]

def ec2InstancesCmd : List String :=
  ["ec2", "describe-instances", "--filters", "Name=instance-state-name,Values=running",
   "--query", "Reservations[*].Instances[*].[InstanceId,Tags[?Key==`Name`].Value|[0],InstanceType]",
   "--output", "json"]

def lambdaFunctionsCmd : List String :=
  ["lambda", "list-functions", "--query", "Functions[*].[FunctionName,Runtime]",
   "--output", "json"]

def elbDescribeCmd : List String :=
  ["elbv2", "describe-load-balancers",
   "--query", "LoadBalancers[*].[LoadBalancerName,Type,State.Code]", "--output", "json"]

def rdsInstancesCmd : List String :=
  ["rds", "describe-db-instances",
   "--query", "DBInstances[*].[DBInstanceIdentifier,Engine,DBInstanceStatus]",
   "--output", "json"]

/-- The "ECS Clusters" paragraph of `discover_services`.  The whole loop —
including the parse of each nested `list-services` response — sits inside
one `try`, whose `except json.JSONDecodeError` prints the clusters parse
error. -/
def discoverEcs (env : CheckEnv) : PyRes Unit := do
  emit (.raw "ECS Clusters:")
  let r ← callAws env ecsClustersCmd
  if r.success then
    pyTry
      (do
        let clusters ← loads env.jload r.stdout
        if pyTruthy clusters then do
          let items ← pyIterR clusters
          pyForM items (fun cluster_arn => do
            let arnStr ← pyAsString cluster_arn
            emit (.info (lastSlashComponent arnStr))
            let svc ← callAws env (ecsListServicesCmd arnStr)
            if svc.success then do
              let services ← loads env.jload svc.stdout
              let ss ← pyIterR services
              pyForM ss (fun service_arn => do
                let sStr ← pyAsString service_arn
                emit (.raw ("    - " ++ lastSlashComponent sStr)))
            else pure ())
        else emit (.warning "No ECS clusters found"))
      (emit (.error "Failed to parse ECS clusters response"))
  else emit (.error "Failed to list ECS clusters")

/-- The "EC2 Instances (running)" paragraph of `discover_services`. -/
def discoverEc2 (env : CheckEnv) : PyRes Unit := do
  emit (.raw "")
  emit (.raw "EC2 Instances (running):")
  let r ← callAws env ec2InstancesCmd
  if r.success then
    pyTry
      (do
        let reservations ← loads env.jload r.stdout
        let resList ← pyIterR reservations
        let instLists ← pyMapM resList pyIterR
        let instances := instLists.flatten
        if !instances.isEmpty then
          pyForM instances (fun inst => do
            let t ← pyUnpack3 inst
            let name := if pyTruthy t.2.1 then t.2.1 else Json.str "unnamed"
            emit (.info (pyToStr t.1 ++ " - " ++ pyToStr name
              ++ " (" ++ pyToStr t.2.2 ++ ")")))
        else emit (.warning "No running EC2 instances found"))
      (emit (.error "Failed to parse EC2 instances response"))
  else emit (.error "Failed to describe EC2 instances")

/-- The "Lambda Functions" paragraph of `discover_services`. -/
def discoverLambda (env : CheckEnv) : PyRes Unit := do
  emit (.raw "")
  emit (.raw "Lambda Functions:")
  let r ← callAws env lambdaFunctionsCmd
  if r.success then
    pyTry
      (do
        let functions ← loads env.jload r.stdout
        if pyTruthy functions then do
          let fns ← pySlice10 functions
          pyForM fns (fun func => do
            let t ← pyUnpack2 func
            emit (.info (pyToStr t.1 ++ " (" ++ pyToStr t.2 ++ ")")))
          let n ← pyLen functions
          if n > 10 then emit (.raw ("    ... and " ++ toString (n - 10) ++ " more"))
          else pure ()
        else emit (.warning "No Lambda functions found"))
      (emit (.error "Failed to parse Lambda functions response"))
  else emit (.error "Failed to list Lambda functions")

/-- The "Load Balancers" paragraph of `discover_services`. -/
def discoverElb (env : CheckEnv) : PyRes Unit := do
  emit (.raw "")
  emit (.raw "Load Balancers:")
  let r ← callAws env elbDescribeCmd
  if r.success then
    pyTry
      (do
        let lbs ← loads env.jload r.stdout
        if pyTruthy lbs then do
          let items ← pyIterR lbs
          pyForM items (fun lb => do
            let t ← pyUnpack3 lb
            emit (.info (pyToStr t.1 ++ " (" ++ pyToStr t.2.1 ++ ") - "
              ++ pyToStr t.2.2)))
        else emit (.warning "No load balancers found"))
      (emit (.error "Failed to parse load balancers response"))
  else emit (.error "Failed to describe load balancers")

/-- The "RDS Instances" paragraph of `discover_services`. -/
def discoverRds (env : CheckEnv) : PyRes Unit := do
  emit (.raw "")
  emit (.raw "RDS Instances:")
  let r ← callAws env rdsInstancesCmd
  if r.success then
    pyTry
      (do
        let dbs ← loads env.jload r.stdout
        if pyTruthy dbs then do
          let items ← pyIterR dbs
          pyForM items (fun db => do
            let t ← pyUnpack3 db
            emit (.info (pyToStr t.1 ++ " (" ++ pyToStr t.2.1 ++ ") - "
              ++ pyToStr t.2.2)))
        else emit (.warning "No RDS instances found"))
      (emit (.error "Failed to parse RDS instances response"))
  else emit (.error "Failed to describe RDS instances")

/-- `discover_services`. -/
def discover_services (env : CheckEnv) : PyRes Unit := do
  emitHeader "Service Discovery"
  discoverEcs env
  discoverEc2 env
  discoverLambda env
  discoverElb env
  discoverRds env

/-- Profile extraction applied by `show_config` to each line of
`~/.aws/config`: strip, keep lines starting with `[`, then drop every
occurrence of `"[profile "`, `"["` and `"]"`. -/
def cfgExtractLine (l : List Char) : Option (List Char) :=
  let ls := pyStrip l
  if ls.head? = some '[' then
    some (pyReplace (pyReplace (pyReplace ls ("[profile ".toList) []) ['['] []) [']'] [])
  else none

/-- Profile extraction applied by `show_config` to each line of
`~/.aws/credentials`: strip, keep lines starting with `[`, then drop every
occurrence of `"["` and `"]"`. -/
def credExtractLine (l : List Char) : Option (List Char) :=
  let ls := pyStrip l
  if ls.head? = some '[' then
    some (pyReplace (pyReplace ls ['['] []) [']'] [])
  else none

def configProfiles (fileLines : List (List Char)) : List (List Char) :=
  fileLines.filterMap cfgExtractLine

def credentialsProfiles (fileLines : List (List Char)) : List (List Char) :=
  fileLines.filterMap credExtractLine

/-- `show_config`. -/
def show_config (env : CheckEnv) : Eff Unit :=
  let cfgSection :=
    match env.configFile with
    | some ls =>
        [Line.success "~/.aws/config exists", Line.raw "  Profiles:"]
          ++ (configProfiles ls).map (fun p => Line.raw ("  - " ++ p.asString))
    | none => [Line.warning "~/.aws/config not found"]
  let credSection :=
    match env.credentialsFile with
    | some ls =>
        [Line.success "~/.aws/credentials exists", Line.raw "  Profiles:"]
          ++ (credentialsProfiles ls).map (fun p => Line.raw ("  - " ++ p.asString))
    | none => [Line.warning "~/.aws/credentials not found"]
  let envLine := fun (name : String) (value : Option String) =>
    if optStrTruthy value then Line.info (name ++ "=" ++ value.getD "")
    else Line.warning (name ++ " not set")
  { val := (),
    calls := [],
    out := [Line.header "AWS Configuration", Line.raw "Configuration files:"]
      ++ cfgSection ++ [Line.raw ""] ++ credSection
      ++ [Line.raw "", Line.raw "Environment variables:"]
      ++ [envLine "AWS_PROFILE" env.envProfile,
          envLine "AWS_DEFAULT_REGION" env.envDefaultRegion,
          envLine "AWS_ACCESS_KEY_ID" (if env.hasAccessKeyId then some "***" else none),
          envLine "AWS_SECRET_ACCESS_KEY" (if env.hasSecretAccessKey then some "***" else none)] }

/-- The sub-command chosen on the `aws_check.py` command line
(`"all"` is the argparse default). -/
inductive CheckCmd where
  | all
  | identity
  | permissions
  | services
  | config
deriving DecidableEq

/-- `main` of `aws_check.py`: the returned `Int` is handed to
`sys.exit`. -/
def checkMain (env : CheckEnv) (cmd : CheckCmd) : PyRes Int :=
  match cmd with
  | .all => do
      let cliOk ← (check_cli_installed env).run
      if !cliOk then pure 1
      else do
        let idOk ← check_identity env
        if !idOk then pure 1
        else do
          let _ ← (show_config env).run
          let _ ← (check_permissions env).run
          let _ ← discover_services env
          pure 0
  | .identity => do
      let cliOk ← (check_cli_installed env).run
      if !cliOk then pure 1
      else do
        let idOk ← check_identity env
        if !idOk then pure 1 else pure 0
  | .permissions => do
      let cliOk ← (check_cli_installed env).run
      if !cliOk then pure 1
      else do
        let idOk ← check_identity env
        if !idOk then pure 1
        else do
          let permsOk ← (check_permissions env).run
          if !permsOk then pure 1 else pure 0
  | .services => do
      let cliOk ← (check_cli_installed env).run
      if !cliOk then pure 1
      else do
        let idOk ← check_identity env
        if !idOk then pure 1
        else do
          let _ ← discover_services env
          pure 0
  | .config => do
      let cliOk ← (check_cli_installed env).run
      if !cliOk then pure 1
      else do
        let _ ← (show_config env).run
        pure 0

/-! ## `aws_metrics.py` -/

/-- Zero-padded two-digit field of `strftime`. -/
def pad2 (n : Int) : String :=
  if n < 10 then "0" ++ toString n else toString n

/-- Zero-padded four-digit year field of `strftime`. -/
def pad4 (n : Int) : String :=
  if n < 10 then "000" ++ toString n
  else if n < 100 then "00" ++ toString n
  else if n < 1000 then "0" ++ toString n
  else toString n

/-- Proleptic-Gregorian civil date from a day count since 1970-01-01
(standard era-based conversion, matching `datetime`'s calendar). -/
def civilFromDays (z0 : Int) : Int × Int × Int :=
  let z := z0 + 719468
  let era : Int := (if z ≥ 0 then z else z - 146096) / 146097
  let doe := z - era * 146097
  let yoe := (doe - doe / 1460 + doe / 36524 - doe / 146096) / 365
  let y := yoe + era * 400
  let doy := doe - (365 * yoe + yoe / 4 - yoe / 100)
  let mp := (5 * doy + 2) / 153
  let d := doy - (153 * mp + 2) / 5 + 1
  let m := mp + (if mp < 10 then 3 else -9)
  (y + (if m ≤ 2 then 1 else 0), m, d)

/-- `strftime("%Y-%m-%dT%H:%M:%SZ")` of a UTC instant given in whole
seconds since the epoch (the format drops sub-second precision, so whole
seconds fully determine the rendered text). -/
def formatTimestamp (t : Int) : String :=
  let days := Int.fdiv t 86400
  let secs := t - days * 86400
  let c := civilFromDays days
  pad4 c.1 ++ "-" ++ pad2 c.2.1 ++ "-" ++ pad2 c.2.2 ++ "T"
    ++ pad2 (secs / 3600) ++ ":" ++ pad2 ((secs % 3600) / 60) ++ ":"
    ++ pad2 (secs % 60) ++ "Z"

/-- The two instants underlying `get_time_range`:
`end_time = datetime.now(timezone.utc)` and
`start_time = end_time - timedelta(hours=hours)` (exact, `timedelta`
supports zero and negative hours), as seconds since the epoch. -/
def get_time_range_sec (now hours : Int) : Int × Int :=
  (now - hours * 3600, now)

/-- `get_time_range`: the two instants rendered by `strftime`. -/
def get_time_range (now hours : Int) : String × String :=
  (formatTimestamp (get_time_range_sec now hours).1,
   formatTimestamp (get_time_range_sec now hours).2)

/-- The ambient state read by `aws_metrics.py`: the subprocess world, the
JSON parser, the clock (whole seconds since the epoch) and the name
`tempfile.NamedTemporaryFile` hands out for the queries file. -/
structure MetricsEnv where
  world : Oracle
  jload : String → Except Unit Json
  now : Int
  tempFile : String

/-- `run_aws_command` from inside `aws_metrics.py`, recording the
invocation in the call trace. -/
def callAwsM (env : MetricsEnv) (args : List String) (timeout : Nat) :
    PyRes CommandResult :=
  .ok (run_aws_command env.world args timeout) [args] []

/-- Truthiness of an `Optional[str]` held as a character list. -/
def optCharsTruthy : Option (List Char) → Bool
  | none => false
  | some l => !l.isEmpty

/-- Left-justified padding of `f"{ns:25}"`. -/
def padTo (w : Nat) (s : String) : String :=
  s ++ String.mk (List.replicate (w - s.length) ' ')

/-- The namespace menu printed by `list_metrics` without an argument. -/
def namespacesMenu : List (String × String) := [
  ("AWS/EC2", "EC2 instances"),
  ("AWS/ECS", "ECS services"),
  ("AWS/Lambda", "Lambda functions"),
  ("AWS/RDS", "RDS databases"),
  ("AWS/ELB", "Classic Load Balancers"),
  ("AWS/ApplicationELB", "Application Load Balancers"),
  ("AWS/NetworkELB", "Network Load Balancers"),
  ("AWS/S3", "S3 buckets"),
  ("AWS/SQS", "SQS queues"),
  ("AWS/SNS", "SNS topics"),
  ("AWS/DynamoDB", "DynamoDB tables")]

def listMetricsCmd (ns : String) : List String :=
  ["cloudwatch", "list-metrics", "--namespace", ns,
   "--query", "Metrics[*].[MetricName,Dimensions[0].Name,Dimensions[0].Value]",
   "--output", "table"]

/-- `list_metrics`. -/
def list_metrics (env : MetricsEnv) (ns : Option String) : Eff Int :=
  if !optStrTruthy ns then
    { val := 0, calls := [],
      out := [Line.header "CloudWatch Metrics", Line.raw "Common namespaces:"]
        ++ namespacesMenu.map (fun p => Line.raw ("  " ++ padTo 25 p.1 ++ " - " ++ p.2))
        ++ [Line.raw "", Line.raw "Usage: aws_metrics.py list <namespace>"] }
  else
    let nsv := ns.getD ""
    let hdr := [Line.header "CloudWatch Metrics",
      Line.info ("Listing metrics in namespace: " ++ nsv), Line.raw ""]
    let r := run_aws_command env.world (listMetricsCmd nsv) 60
    if r.success then
      { val := 0, calls := [listMetricsCmd nsv], out := hdr ++ [Line.raw r.stdout] }
    else
      { val := 1, calls := [listMetricsCmd nsv],
        out := hdr ++ [Line.error ("Failed to list metrics: " ++ r.stderr)] }

def getMetricBaseCmd (ns metric_name start_time end_time : String)
    (period : Int) : List String :=
  ["cloudwatch", "get-metric-statistics",
   "--namespace", ns,
   "--metric-name", metric_name,
   "--start-time", start_time,
   "--end-time", end_time,
   "--period", toString period,
   "--statistics", "Average", "Minimum", "Maximum",
   "--query", "sort_by(Datapoints, &Timestamp)[*].[Timestamp,Average,Minimum,Maximum]",
   "--output", "table"]

/-- The argument vector `get_metric` hands to the external CLI: the base
command, extended with `--dimensions` exactly when both the dimension name
and the dimension value are truthy. -/
def getMetricCmd (env : MetricsEnv) (metric_name ns : String)
    (dimension_name dimension_value : Option (List Char)) (hours period : Int) :
    List String :=
  let ts := get_time_range env.now hours
  let base := getMetricBaseCmd ns metric_name ts.1 ts.2 period
  if optCharsTruthy dimension_name && optCharsTruthy dimension_value then
    base ++ ["--dimensions",
      "Name=" ++ (dimension_name.getD []).asString
        ++ ",Value=" ++ (dimension_value.getD []).asString]
  else base

/-- `get_metric`. -/
def get_metric (env : MetricsEnv) (metric_name ns : String)
    (dimension_name dimension_value : Option (List Char)) (hours period : Int) :
    Eff Int :=
  let ts := get_time_range env.now hours
  let cmd := getMetricCmd env metric_name ns dimension_name dimension_value hours period
  let hdr := [Line.header ("CloudWatch Metric: " ++ metric_name),
      Line.info ("Namespace: " ++ ns),
      Line.info ("Period: " ++ toString period ++ "s"),
      Line.info ("Time range: " ++ ts.1 ++ " to " ++ ts.2)]
    ++ (if optCharsTruthy dimension_name && optCharsTruthy dimension_value then
          [Line.info ("Dimension: " ++ (dimension_name.getD []).asString
            ++ "=" ++ (dimension_value.getD []).asString)]
        else [])
    ++ [Line.raw ""]
  let r := run_aws_command env.world cmd 60
  if r.success then
    { val := 0, calls := [cmd], out := hdr ++ [Line.raw r.stdout] }
  else
    { val := 1, calls := [cmd],
      out := hdr ++ [Line.error ("Failed to get metric: " ++ r.stderr)] }

def describeAlarmsCmd (state : Option String) : List String :=
  ["cloudwatch", "describe-alarms",
   "--query", "MetricAlarms[*].[AlarmName,StateValue,MetricName,Namespace]",
   "--output", "table"]
  ++ (if optStrTruthy state then ["--state-value", state.getD ""] else [])

def alarmCountCmd (s : String) : List String :=
  ["cloudwatch", "describe-alarms", "--state-value", s,
   "--query", "length(MetricAlarms)", "--output", "text"]

/-- `list_alarms` (the colour codes around a non-zero ALARM count are
formatting only and are dropped). -/
def list_alarms (env : MetricsEnv) (state : Option String) : Eff Int :=
  let hdr := [Line.header "CloudWatch Alarms"]
    ++ (if optStrTruthy state then
          [Line.info ("Filtering by state: " ++ state.getD "")]
        else [])
    ++ [Line.raw ""]
  let cmd := describeAlarmsCmd state
  let r := run_aws_command env.world cmd 60
  if !r.success then
    { val := 1, calls := [cmd],
      out := hdr ++ [Line.error ("Failed to list alarms: " ++ r.stderr)] }
  else
    let count := fun (s : String) =>
      let cr := run_aws_command env.world (alarmCountCmd s) 60
      if cr.success then pyStripS cr.stdout else "?"
    let alarm_count := count "ALARM"
    { val := 0,
      calls := [cmd, alarmCountCmd "ALARM", alarmCountCmd "OK",
        alarmCountCmd "INSUFFICIENT_DATA"],
      out := hdr ++ [Line.raw r.stdout, Line.raw "", Line.raw "Summary:",
        (if alarm_count ≠ "0" then Line.raw ("  ALARM: " ++ alarm_count)
         else Line.raw "  ALARM: 0"),
        Line.raw ("  OK: " ++ count "OK"),
        Line.raw ("  INSUFFICIENT_DATA: " ++ count "INSUFFICIENT_DATA")] }

def ecsMetricStatCmd (cluster service metric start_time end_time : String) :
    List String :=
  ["cloudwatch", "get-metric-statistics",
   "--namespace", "AWS/ECS",
   "--metric-name", metric,
   "--dimensions",
   "Name=ClusterName,Value=" ++ cluster,
   "Name=ServiceName,Value=" ++ service,
   "--start-time", start_time,
   "--end-time", end_time,
   "--period", "300",
   "--statistics", "Average",
   "--query", "sort_by(Datapoints, &Timestamp)[-5:].[Timestamp,Average]",
   "--output", "table"]

/-- `get_ecs_metrics`. -/
def get_ecs_metrics (env : MetricsEnv) (cluster : String)
    (service : Option String) (hours : Int) : PyRes Int := do
  emitHeader ("ECS Metrics: " ++ cluster)
  let ts := get_time_range env.now hours
  if !optStrTruthy service then do
    emit (.raw "Services in cluster:")
    let r ← callAwsM env (ecsListServicesCmd cluster) 60
    if r.success then
      pyTry
        (do
          let services ← loads env.jload r.stdout
          let ss ← pyIterR services
          pyForM ss (fun svc_arn => do
            let s ← pyAsString svc_arn
            emit (.raw ("  - " ++ lastSlashComponent s))))
        (emit (.error "Failed to parse services response"))
    else emit (.error ("Failed to list services: " ++ r.stderr))
    emit (.raw "")
    emit (.raw ("Usage: aws_metrics.py ecs " ++ cluster ++ " <service-name>"))
    pure 0
  else do
    let svc := service.getD ""
    emit (.info ("Service: " ++ svc))
    emit (.raw "")
    pyForM [("CPUUtilization", "CPU Utilization"),
            ("MemoryUtilization", "Memory Utilization")]
      (fun p => do
        emit (.raw (p.2 ++ ":"))
        let r ← callAwsM env (ecsMetricStatCmd cluster svc p.1 ts.1 ts.2) 60
        (if r.success then emit (.raw r.stdout)
         else emit (.warning ("No data for " ++ p.1)))
        emit (.raw ""))
    pure 0

def ec2MetricStatCmd (instance_id metric start_time end_time stat : String) :
    List String :=
  ["cloudwatch", "get-metric-statistics",
   "--namespace", "AWS/EC2",
   "--metric-name", metric,
   "--dimensions", "Name=InstanceId,Value=" ++ instance_id,
   "--start-time", start_time,
   "--end-time", end_time,
   "--period", "300",
   "--statistics", stat,
   "--query", "sort_by(Datapoints, &Timestamp)[-5:].[Timestamp," ++ stat ++ "]",
   "--output", "table"]

def ec2MetricsList : List (String × String × String) := [
  ("CPUUtilization", "CPU Utilization", "Average"),
  ("NetworkIn", "Network In (bytes)", "Sum"),
  ("NetworkOut", "Network Out (bytes)", "Sum")]

/-- `get_ec2_metrics`: always returns 0; per-metric failures only print a
warning. -/
def get_ec2_metrics (env : MetricsEnv) (instance_id : String) (hours : Int) :
    Eff Int :=
  let ts := get_time_range env.now hours
  let paragraph := fun (m : String × String × String) =>
    let cmd := ec2MetricStatCmd instance_id m.1 ts.1 ts.2 m.2.2
    let r := run_aws_command env.world cmd 60
    (cmd, [Line.raw (m.2.1 ++ ":"),
      (if r.success then Line.raw r.stdout else Line.warning ("No data for " ++ m.1)),
      Line.raw ""])
  { val := 0,
    calls := ec2MetricsList.map (fun m => (paragraph m).1),
    out := [Line.header ("EC2 Metrics: " ++ instance_id)]
      ++ (ec2MetricsList.map (fun m => (paragraph m).2)).flatten }

def rdsMetricStatCmd (db_identifier metric start_time end_time : String) :
    List String :=
  ["cloudwatch", "get-metric-statistics",
   "--namespace", "AWS/RDS",
   "--metric-name", metric,
   "--dimensions", "Name=DBInstanceIdentifier,Value=" ++ db_identifier,
   "--start-time", start_time,
   "--end-time", end_time,
   "--period", "300",
   "--statistics", "Average",
   "--query", "sort_by(Datapoints, &Timestamp)[-5:].[Timestamp,Average]",
   "--output", "table"]

def rdsMetricsList : List (String × String) := [
  ("CPUUtilization", "CPU Utilization"),
  ("DatabaseConnections", "Database Connections"),
  ("FreeStorageSpace", "Free Storage Space (bytes)")]

/-- `get_rds_metrics`: always returns 0; per-metric failures only print a
warning. -/
def get_rds_metrics (env : MetricsEnv) (db_identifier : String) (hours : Int) :
    Eff Int :=
  let ts := get_time_range env.now hours
  let paragraph := fun (m : String × String) =>
    let cmd := rdsMetricStatCmd db_identifier m.1 ts.1 ts.2
    let r := run_aws_command env.world cmd 60
    (cmd, [Line.raw (m.2 ++ ":"),
      (if r.success then Line.raw r.stdout else Line.warning ("No data for " ++ m.1)),
      Line.raw ""])
  { val := 0,
    calls := rdsMetricsList.map (fun m => (paragraph m).1),
    out := [Line.header ("RDS Metrics: " ++ db_identifier)]
      ++ (rdsMetricsList.map (fun m => (paragraph m).2)).flatten }

/-- The outcome of `export_metrics`, including its file-system effects:
`written` is the content written to the output file (`none` when the file
was neither created nor modified) and `tempDeleted` records that the
temporary queries file was unlinked (the `finally` block) before return. -/
structure ExportOutcome where
  exit : Int
  written : Option String
  tempDeleted : Bool
  calls : List (List String)
  out : List Line

def exportDataCmd (env : MetricsEnv) (hours : Int) : List String :=
  let ts := get_time_range env.now hours
  ["cloudwatch", "get-metric-data",
   "--metric-data-queries", "file://" ++ env.tempFile,
   "--start-time", ts.1,
   "--end-time", ts.2,
   "--output", "json"]

/-- `export_metrics` (the content `json.dump` places in the temporary
queries file is not observable through any claim and is not tracked;
only the file's name enters the command line). -/
def export_metrics (env : MetricsEnv) (output_file : String) (hours : Int) :
    ExportOutcome :=
  let ts := get_time_range env.now hours
  let hdr := [Line.header "Exporting Metrics",
    Line.info ("Time range: " ++ ts.1 ++ " to " ++ ts.2),
    Line.info ("Output file: " ++ output_file)]
  let cmd := exportDataCmd env hours
  let r := run_aws_command env.world cmd 120
  if r.success then
    { exit := 0, written := some r.stdout, tempDeleted := true, calls := [cmd],
      out := hdr ++ [Line.success ("Metrics exported to " ++ output_file),
        Line.info ("File size: " ++ toString r.stdout.utf8ByteSize ++ " bytes")] }
  else
    { exit := 1, written := none, tempDeleted := true, calls := [cmd],
      out := hdr ++ [Line.error ("Failed to export metrics: " ++ r.stderr)] }

/-- The sub-command chosen on the `aws_metrics.py` command line
(`noCommand` when no sub-command was given; `exportFile` is the `export`
sub-command). -/
inductive MetricsCmd where
  | noCommand
  | list (ns : Option String)
  | get (metric : String) (ns : String) (dimension : Option (List Char))
      (hours : Int) (period : Int)
  | alarms (state : Option String)
  | ecs (cluster : String) (service : Option String) (hours : Int)
  | ec2 (instance_id : String) (hours : Int)
  | rds (db_identifier : String) (hours : Int)
  | exportFile (output_file : String) (hours : Int)

/-- The `dim_name, dim_value` computed by `main`'s `get` branch:
`None, None` unless the flag is truthy and `split("=", 1)` yields two
parts. -/
def mainGetDims (dimension : Option (List Char)) :
    Option (List Char) × Option (List Char) :=
  match dimension with
  | none => (none, none)
  | some d =>
      if d.isEmpty then (none, none)
      else match pySplit1 d '=' with
        | [n, v] => (some n, some v)
        | _ => (none, none)

/-- `main` of `aws_metrics.py` (the argparse help text printed when no
sub-command is given is abbreviated to one line). -/
def metricsMain (env : MetricsEnv) (args : MetricsCmd) : PyRes Int :=
  match args with
  | .noCommand => .ok 0 [] [Line.raw "usage: aws_metrics.py ..."]
  | .list ns => (list_metrics env ns).run
  | .get metric ns dimension hours period =>
      let dims := mainGetDims dimension
      (get_metric env metric ns dims.1 dims.2 hours period).run
  | .alarms state => (list_alarms env state).run
  | .ecs cluster service hours => get_ecs_metrics env cluster service hours
  | .ec2 instance_id hours => (get_ec2_metrics env instance_id hours).run
  | .rds db_identifier hours => (get_rds_metrics env db_identifier hours).run
  | .exportFile output_file hours =>
      let e := export_metrics env output_file hours
      .ok e.exit e.calls e.out

/-! ## Claims -/

/-- C1: For every argument list and timeout, the `CommandResult` returned by
`run_aws_command` (shared by both scripts) satisfies: `success` is true if
and only if `returncode` equals 0; in particular the synthetic failure
results for timeout and missing binary carry `success = false` with
`returncode = -1`. -/
theorem C1_success_iff_returncode_zero (world : Oracle) (args : List String)
    (timeout : Nat) :
    ((run_aws_command world args timeout).success = true ↔
      (run_aws_command world args timeout).returncode = 0) ∧
    (world args timeout = .timeoutExpired ∨ world args timeout = .fileNotFound →
      (run_aws_command world args timeout).success = false ∧
      (run_aws_command world args timeout).returncode = -1) := by
  cases h : world args timeout <;>
    simp [run_aws_command, h]

/-- Witness for C1 at a concrete world: a timed-out invocation yields the
synthetic failure result. -/
theorem C1_witness :
    (run_aws_command (fun _ _ => .timeoutExpired) ["sts", "get-caller-identity"] 30).success
      = false ∧
    (run_aws_command (fun _ _ => .timeoutExpired) ["sts", "get-caller-identity"] 30).returncode
      = -1 :=
  (C1_success_iff_returncode_zero (fun _ _ => .timeoutExpired)
    ["sts", "get-caller-identity"] 30).2 (Or.inl rfl)

/-- C2: For every argument list, when the underlying subprocess invocation
raises `TimeoutExpired` or `FileNotFoundError`, `run_aws_command` does not
propagate the exception but returns a failure `CommandResult` with empty
stdout, returncode -1, and the fixed stderr message "Command timed out"
(timeout) or "AWS CLI not found" (missing binary). -/
theorem C2_synthetic_failure_results (world : Oracle) (args : List String)
    (timeout : Nat) :
    (world args timeout = .timeoutExpired →
      run_aws_command world args timeout =
        { success := false, stdout := "", stderr := "Command timed out",
          returncode := -1 }) ∧
    (world args timeout = .fileNotFound →
      run_aws_command world args timeout =
        { success := false, stdout := "", stderr := "AWS CLI not found",
          returncode := -1 }) := by
  constructor <;> intro h <;> simp [run_aws_command, h]

/-- Witness for C2 at a concrete world: a missing binary yields the fixed
"AWS CLI not found" result. -/
theorem C2_witness :
    run_aws_command (fun _ _ => .fileNotFound) ["--version"] 30 =
      { success := false, stdout := "", stderr := "AWS CLI not found",
        returncode := -1 } :=
  (C2_synthetic_failure_results (fun _ _ => .fileNotFound) ["--version"] 30).2 rfl

/-- C4 counterexample: at `hours = 0` (an integer `argparse` accepts, e.g.
`--hours 0`), `get_time_range` returns equal start and end — both as
instants and as rendered strings — so `start < end` fails. -/
theorem C4_counterexample :
    (get_time_range_sec 1700000000 0).1 = (get_time_range_sec 1700000000 0).2 ∧
    (get_time_range 1700000000 0).1 = (get_time_range 1700000000 0).2 := by
  constructor <;> rfl

/-- C4 (amended): for every integer `hours`, the two instants underlying
`get_time_range` differ by exactly `hours` hours (`end - start =
hours * 3600` seconds), and `start < end` holds exactly when `hours` is
positive; the rendered pair is the `strftime` image of those instants. -/
theorem C4_time_range_delta (now hours : Int) :
    (get_time_range_sec now hours).2 - (get_time_range_sec now hours).1
        = hours * 3600 ∧
    ((get_time_range_sec now hours).1 < (get_time_range_sec now hours).2 ↔
      0 < hours) ∧
    (get_time_range now hours).1
        = formatTimestamp (get_time_range_sec now hours).1 ∧
    (get_time_range now hours).2
        = formatTimestamp (get_time_range_sec now hours).2 := by
  refine ⟨by simp only [get_time_range_sec]; omega, ?_, rfl, rfl⟩
  simp only [get_time_range_sec]
  omega

/-- C5: when the `aws_check.py` "all" sequence runs with the external
binary absent from `PATH` (`shutil.which` returns `None`), `main` returns
1 immediately and the call trace is empty: no `run_aws_command`
invocation is ever made. -/
theorem C5_all_aborts_without_calls (env : CheckEnv)
    (h : env.awsPath = none) :
    checkMain env .all =
      PyRes.ok 1 []
        [.header "AWS CLI Installation", .error "AWS CLI not found in PATH",
         .raw "\nInstall with:", .raw "  macOS:  brew install awscli",
         .raw "  Linux:  curl 'https://awscli.amazonaws.com/awscli-exe-linux-x86_64.zip' -o 'awscliv2.zip'"] := by
  simp [checkMain, check_cli_installed, h, Eff.run, PyRes.bind]

/-- Witness for C5 at a concrete environment with no binary on `PATH`. -/
theorem C5_witness :
    checkMain
      { awsPath := none, envProfile := none, envDefaultRegion := none,
        hasAccessKeyId := false, hasSecretAccessKey := false,
        configFile := none, credentialsFile := none,
        world := fun _ _ => .fileNotFound, jload := fun _ => .error () } .all =
      PyRes.ok 1 []
        [.header "AWS CLI Installation", .error "AWS CLI not found in PATH",
         .raw "\nInstall with:", .raw "  macOS:  brew install awscli",
         .raw "  Linux:  curl 'https://awscli.amazonaws.com/awscli-exe-linux-x86_64.zip' -o 'awscliv2.zip'"] :=
  C5_all_aborts_without_calls _ rfl

/-- C8: `export_metrics` writes the output file iff the metric-data
command succeeds: on success it writes exactly the command's stdout and
returns 0; on failure it returns 1 without touching the output file; and
in both cases the temporary queries file is deleted before returning. -/
theorem C8_export_metrics (env : MetricsEnv) (output_file : String)
    (hours : Int) :
    (export_metrics env output_file hours).tempDeleted = true ∧
    ((export_metrics env output_file hours).exit = 0 ↔
      (run_aws_command env.world (exportDataCmd env hours) 120).success = true) ∧
    ((run_aws_command env.world (exportDataCmd env hours) 120).success = true →
      (export_metrics env output_file hours).written =
          some (run_aws_command env.world (exportDataCmd env hours) 120).stdout ∧
      (export_metrics env output_file hours).exit = 0) ∧
    ((run_aws_command env.world (exportDataCmd env hours) 120).success = false →
      (export_metrics env output_file hours).written = none ∧
      (export_metrics env output_file hours).exit = 1) := by
  cases h : (run_aws_command env.world (exportDataCmd env hours) 120).success <;>
    simp [export_metrics, h]

/-- Witness for C8 at a concrete environment (successful command). -/
theorem C8_witness :
    (export_metrics
      { world := fun _ _ => .completed 0 "DATA" "", jload := fun _ => .error (),
        now := 1700000000, tempFile := "/tmp/q.json" } "metrics.json" 24).written
      = some "DATA" ∧
    (export_metrics
      { world := fun _ _ => .completed 0 "DATA" "", jload := fun _ => .error (),
        now := 1700000000, tempFile := "/tmp/q.json" } "metrics.json" 24).exit
      = 0 :=
  (C8_export_metrics
    { world := fun _ _ => .completed 0 "DATA" "", jload := fun _ => .error (),
      now := 1700000000, tempFile := "/tmp/q.json" } "metrics.json" 24).2.2.1 rfl

/-! Helper lemmas about `pyReplace` (Python `str.replace`). -/

theorem pyReplace_no_head (s : List Char) (o : Char) (tl new : List Char)
    (h : o ∉ s) : pyReplace s (o :: tl) new = s := by
  induction s with
  | nil => simp [pyReplace]
  | cons c cs ih =>
      have hoc : o ≠ c := by
        intro e; exact h (e ▸ List.mem_cons_self c cs)
      rw [pyReplace, dif_neg]
      · rw [ih (fun m => h (List.mem_cons_of_mem _ m))]
      · intro hc
        exact hoc ((List.cons_prefix_cons.mp
          (List.isPrefixOf_iff_prefix.mp hc.2)).1)

theorem pyReplace_head (old t new : List Char) (h : old ≠ []) :
    pyReplace (old ++ t) old new = new ++ pyReplace t old new := by
  cases old with
  | nil => exact absurd rfl h
  | cons o tl =>
      rw [List.cons_append, pyReplace, dif_pos]
      · rw [show o :: (tl ++ t) = (o :: tl) ++ t from rfl, List.drop_left]
      · refine ⟨by simp, ?_⟩
        rw [List.isPrefixOf_iff_prefix]
        rw [show o :: (tl ++ t) = (o :: tl) ++ t from rfl]
        exact List.prefix_append (o :: tl) t

theorem pyReplace_strip_last (X : List Char) (c : Char) (new : List Char)
    (h : c ∉ X) : pyReplace (X ++ [c]) [c] new = X ++ new := by
  induction X with
  | nil =>
      have h0 := pyReplace_head [c] [] new (by simp)
      simp only [List.append_nil, List.nil_append] at h0 ⊢
      simp [h0, pyReplace]
  | cons x xs ih =>
      have hxc : c ≠ x := by
        intro e; exact h (e ▸ List.mem_cons_self x xs)
      rw [List.cons_append, pyReplace, dif_neg]
      · rw [ih (fun m => h (List.mem_cons_of_mem _ m)), List.cons_append]
      · intro hc
        exact hxc ((List.cons_prefix_cons.mp
          (List.isPrefixOf_iff_prefix.mp hc.2)).1)

/-- C7: for every config-file line whose stripped content is
`[profile X]` and every credentials-file line whose stripped content is
`[X]` (`X` free of square brackets), `show_config` extracts exactly the
profile name `X` and prints it as `  - X`; lines whose stripped content
does not start with `[` contribute no profile. -/
theorem C7_show_config_profiles (X : List Char)
    (hl : '[' ∉ X) (hr : ']' ∉ X) :
    (∀ l : List Char, pyStrip l = "[profile ".toList ++ X ++ [']'] →
      cfgExtractLine l = some X) ∧
    (∀ l : List Char, pyStrip l = '[' :: (X ++ [']']) →
      credExtractLine l = some X) ∧
    (∀ l : List Char, (pyStrip l).head? ≠ some '[' →
      cfgExtractLine l = none ∧ credExtractLine l = none) ∧
    (∀ env : CheckEnv, ∀ fileLines : List (List Char),
      env.configFile = some fileLines →
      ∀ p ∈ configProfiles fileLines,
        Line.raw ("  - " ++ p.asString) ∈ (show_config env).out) ∧
    (∀ env : CheckEnv, ∀ fileLines : List (List Char),
      env.credentialsFile = some fileLines →
      ∀ p ∈ credentialsProfiles fileLines,
        Line.raw ("  - " ++ p.asString) ∈ (show_config env).out) := by
  have hbr : '[' ∉ X ++ [']'] := by
    intro m
    rcases List.mem_append.mp m with m | m
    · exact hl m
    · simp at m
  refine ⟨?_, ?_, ?_, ?_, ?_⟩
  · intro l hstrip
    unfold cfgExtractLine
    rw [hstrip]
    rw [if_pos (by rw [show "[profile ".toList = '[' :: "profile ".toList from rfl]; rfl)]
    rw [List.append_assoc, pyReplace_head _ _ _ (by decide)]
    rw [List.nil_append]
    rw [show "[profile ".toList = '[' :: "profile ".toList from rfl]
    rw [pyReplace_no_head _ _ _ _ hbr]
    rw [pyReplace_no_head _ _ _ _ hbr]
    rw [pyReplace_strip_last _ _ _ hr]
    rw [List.append_nil]
  · intro l hstrip
    unfold credExtractLine
    rw [hstrip]
    rw [if_pos (by rfl)]
    rw [show ('[' :: (X ++ [']'])) = ['['] ++ (X ++ [']']) from rfl]
    rw [pyReplace_head _ _ _ (by decide)]
    rw [List.nil_append]
    rw [pyReplace_no_head _ _ _ _ hbr]
    rw [pyReplace_strip_last _ _ _ hr]
    rw [List.append_nil]
  · intro l hhead
    constructor
    · unfold cfgExtractLine
      rw [if_neg hhead]
    · unfold credExtractLine
      rw [if_neg hhead]
  · intro env fileLines hcfg p hp
    simp only [show_config, hcfg]
    exact List.mem_append_left _ (List.mem_append_left _ (List.mem_append_left _
      (List.mem_append_left _ (List.mem_append_right _
        (List.mem_append_right _ (List.mem_map_of_mem _ hp))))))
  · intro env fileLines hcred p hp
    simp only [show_config, hcred]
    exact List.mem_append_left _ (List.mem_append_left _ (List.mem_append_right _
      (List.mem_append_right _ (List.mem_map_of_mem _ hp))))

/-- Witness for C7 at concrete lines: `[profile myprofile]` in the config
file yields `myprofile`, `[default]` in the credentials file yields
`default`, and a comment line contributes nothing. -/
theorem C7_witness :
    cfgExtractLine "[profile myprofile]".toList = some "myprofile".toList ∧
    credExtractLine "[default]".toList = some "default".toList ∧
    cfgExtractLine "region = us-east-1".toList = none :=
  ⟨(C7_show_config_profiles "myprofile".toList (by decide) (by decide)).1
      "[profile myprofile]".toList (by decide),
   (C7_show_config_profiles "default".toList (by decide) (by decide)).2.1
      "[default]".toList (by decide),
   ((C7_show_config_profiles [] (by decide) (by decide)).2.2.1
      "region = us-east-1".toList (by decide)).1⟩

/-! Helper lemmas about `pySplit1` (Python `str.split(sep, 1)`). -/

theorem pySplit1_shape (d : List Char) (sep : Char) :
    (pySplit1 d sep = [d] ∧ sep ∉ d) ∨
    (∃ x y, pySplit1 d sep = [x, y] ∧ d = x ++ sep :: y ∧ sep ∉ x) := by
  induction d with
  | nil => exact Or.inl ⟨rfl, by simp⟩
  | cons c rest ih =>
      by_cases hc : c = sep
      · subst hc
        exact Or.inr ⟨[], rest, by simp [pySplit1], rfl, by simp⟩
      · rcases ih with ⟨h1, h2⟩ | ⟨x, y, h1, hxy, hx⟩
        · refine Or.inl ⟨by simp [pySplit1, hc, h1], ?_⟩
          intro m
          rcases List.mem_cons.mp m with e | m
          · exact hc e.symm
          · exact h2 m
        · refine Or.inr ⟨c :: x, y, by simp [pySplit1, hc, h1], by simp [hxy], ?_⟩
          intro m
          rcases List.mem_cons.mp m with e | m
          · exact hc e.symm
          · exact hx m

theorem split_first_unique (sep : Char) :
    ∀ (x n y v : List Char), x ++ sep :: y = n ++ sep :: v →
      sep ∉ x → sep ∉ n → x = n ∧ y = v := by
  intro x
  induction x with
  | nil =>
      intro n y v h hx hn
      cases n with
      | nil => simpa using h
      | cons a as =>
          simp only [List.nil_append, List.cons_append, List.cons.injEq] at h
          exact (hn (by rw [h.1]; exact List.mem_cons_self a as)).elim
  | cons b bs ih =>
      intro n y v h hx hn
      cases n with
      | nil =>
          simp only [List.cons_append, List.nil_append, List.cons.injEq] at h
          exact (hx (by rw [← h.1]; exact List.mem_cons_self b bs)).elim
      | cons a as =>
          simp only [List.cons_append, List.cons.injEq] at h
          obtain ⟨rfl, h2⟩ := h
          have hr := ih as y v h2 (fun m => hx (List.mem_cons_of_mem _ m))
            (fun m => hn (List.mem_cons_of_mem _ m))
          exact ⟨by rw [hr.1], hr.2⟩

/-- C9: in the metrics tool's `get` command, the `--dimension` flag
influences the issued query exactly when its value splits on the first
`=` into a non-empty name and a non-empty value; in every other case
(absent flag, no `=`, empty name, empty value) the flag is silently
ignored and the command passed to the external CLI is the base command
with no `--dimensions` argument. -/
theorem C9_dimension_flag (env : MetricsEnv) (metric nsp : String)
    (dimension : Option (List Char)) (hours period : Int) :
    (metricsMain env (.get metric nsp dimension hours period) =
      (get_metric env metric nsp (mainGetDims dimension).1
        (mainGetDims dimension).2 hours period).run) ∧
    ((get_metric env metric nsp (mainGetDims dimension).1
        (mainGetDims dimension).2 hours period).calls =
      [getMetricCmd env metric nsp (mainGetDims dimension).1
        (mainGetDims dimension).2 hours period]) ∧
    ((∃ n v, dimension = some (n ++ '=' :: v) ∧ '=' ∉ n ∧ n ≠ [] ∧ v ≠ [] ∧
        getMetricCmd env metric nsp (mainGetDims dimension).1
            (mainGetDims dimension).2 hours period =
          getMetricBaseCmd nsp metric (get_time_range env.now hours).1
              (get_time_range env.now hours).2 period
            ++ ["--dimensions",
                "Name=" ++ n.asString ++ ",Value=" ++ v.asString]) ∨
      (getMetricCmd env metric nsp (mainGetDims dimension).1
            (mainGetDims dimension).2 hours period =
          getMetricBaseCmd nsp metric (get_time_range env.now hours).1
              (get_time_range env.now hours).2 period ∧
        ¬ ∃ n v, dimension = some (n ++ '=' :: v) ∧ '=' ∉ n ∧ n ≠ [] ∧ v ≠ [])) := by
  refine ⟨rfl, ?_, ?_⟩
  · cases h : (run_aws_command env.world
        (getMetricCmd env metric nsp (mainGetDims dimension).1
          (mainGetDims dimension).2 hours period) 60).success <;>
      simp [get_metric, h]
  · match dimension with
    | none =>
        refine Or.inr ⟨by simp [mainGetDims, getMetricCmd, optCharsTruthy], ?_⟩
        rintro ⟨n, v, h, -⟩
        exact Option.noConfusion h
    | some d =>
        by_cases hd : d.isEmpty
        · refine Or.inr ⟨by simp [mainGetDims, hd, getMetricCmd, optCharsTruthy], ?_⟩
          rintro ⟨n, v, h, -⟩
          rw [List.isEmpty_iff] at hd
          subst hd
          simp at h
        · rcases pySplit1_shape d '=' with ⟨h1, h2⟩ | ⟨x, y, h1, hxy, hx⟩
          · refine Or.inr ⟨by simp [mainGetDims, hd, h1, getMetricCmd, optCharsTruthy], ?_⟩
            rintro ⟨n, v, h, -⟩
            rw [Option.some_inj] at h
            subst h
            exact h2 (List.mem_append_right n (List.mem_cons_self '=' v))
          · have hdims : mainGetDims (some d) = (some x, some y) := by
              simp [mainGetDims, hd, h1]
            by_cases hxe : x.isEmpty
            · refine Or.inr ⟨by simp [hdims, getMetricCmd, optCharsTruthy, hxe], ?_⟩
              rintro ⟨n, v, h, hn, hnn, -⟩
              rw [Option.some_inj] at h
              rw [List.isEmpty_iff] at hxe
              subst hxe
              rw [hxy] at h
              exact hnn ((split_first_unique '=' [] n y v h (by simp) hn).1.symm)
            · by_cases hye : y.isEmpty
              · refine Or.inr ⟨by simp [hdims, getMetricCmd, optCharsTruthy, hye], ?_⟩
                rintro ⟨n, v, h, hn, -, hvn⟩
                rw [Option.some_inj] at h
                rw [List.isEmpty_iff] at hye
                subst hye
                rw [hxy] at h
                exact hvn (split_first_unique '=' x n [] v h hx hn).2.symm
              · have hxf : x.isEmpty = false := by
                  revert hxe; cases x.isEmpty <;> simp
                have hyf : y.isEmpty = false := by
                  revert hye; cases y.isEmpty <;> simp
                refine Or.inl ⟨x, y, by rw [hxy], hx,
                  fun e => hxe (by simp [e]),
                  fun e => hye (by simp [e]), ?_⟩
                simp [hdims, getMetricCmd, optCharsTruthy, hxf, hyf]

/-- Witness for C9 at concrete flag values: `InstanceId=i-1` adds the
`--dimensions` argument, `Name=` does not. -/
theorem C9_witness :
    (∃ n v,
      (some "InstanceId=i-1".toList : Option (List Char)) = some (n ++ '=' :: v) ∧
      '=' ∉ n ∧ n ≠ [] ∧ v ≠ [] ∧
      getMetricCmd
          { world := fun _ _ => .completed 0 "" "", jload := fun _ => .error (),
            now := 1700000000, tempFile := "q" }
          "CPUUtilization" "AWS/EC2"
          (mainGetDims (some "InstanceId=i-1".toList)).1
          (mainGetDims (some "InstanceId=i-1".toList)).2 1 300 =
        getMetricBaseCmd "AWS/EC2" "CPUUtilization"
            (get_time_range 1700000000 1).1 (get_time_range 1700000000 1).2 300
          ++ ["--dimensions", "Name=" ++ n.asString ++ ",Value=" ++ v.asString]) ∧
    (getMetricCmd
        { world := fun _ _ => .completed 0 "" "", jload := fun _ => .error (),
          now := 1700000000, tempFile := "q" }
        "CPUUtilization" "AWS/EC2"
        (mainGetDims (some "Name=".toList)).1
        (mainGetDims (some "Name=".toList)).2 1 300 =
      getMetricBaseCmd "AWS/EC2" "CPUUtilization"
          (get_time_range 1700000000 1).1 (get_time_range 1700000000 1).2 300) := by
  constructor
  · rcases (C9_dimension_flag
        { world := fun _ _ => .completed 0 "" "", jload := fun _ => .error (),
          now := 1700000000, tempFile := "q" }
        "CPUUtilization" "AWS/EC2" (some "InstanceId=i-1".toList) 1 300).2.2 with
      h | h
    · exact h
    · exact absurd ⟨"InstanceId".toList, "i-1".toList, by decide, by decide,
        by decide, by decide⟩ h.2
  · rcases (C9_dimension_flag
        { world := fun _ _ => .completed 0 "" "", jload := fun _ => .error (),
          now := 1700000000, tempFile := "q" }
        "CPUUtilization" "AWS/EC2" (some "Name=".toList) 1 300).2.2 with
      h | h
    · rcases h with ⟨n, v, he, hn, -, hv, -⟩
      rw [Option.some_inj] at he
      have hconv : "Name".toList ++ '=' :: ([] : List Char) = "Name=".toList := by
        decide
      have hu := split_first_unique '=' "Name".toList n [] v (hconv.trans he)
        (by decide) hn
      exact absurd hu.2.symm hv
    · exact h.1

/-- C10: `check_permissions` returns true iff all ten required permission
probes succeed; the four optional probes never affect its return value
(two worlds agreeing on the required probes yield the same result
regardless of what the optional probes do). -/
theorem C10_check_permissions (env : CheckEnv) :
    ((check_permissions env).val = true ↔
      ∀ p ∈ requiredTests, (run_aws_command env.world p.2 30).success = true) ∧
    (∀ env' : CheckEnv,
      (∀ p ∈ requiredTests, env.world p.2 30 = env'.world p.2 30) →
      (check_permissions env).val = (check_permissions env').val) ∧
    requiredTests.length = 10 ∧ optionalTests.length = 4 := by
  refine ⟨?_, ?_, rfl, rfl⟩
  · constructor
    · intro h p hp
      have h0 : requiredTests.countP
          (fun p => !(run_aws_command env.world p.2 30).success) = 0 := by
        simpa [check_permissions] using h
      simpa using List.countP_eq_zero.mp h0 p hp
    · intro h
      have h0 : requiredTests.countP
          (fun p => !(run_aws_command env.world p.2 30).success) = 0 :=
        List.countP_eq_zero.mpr (fun p hp => by simp [h p hp])
      simp [check_permissions, h0]
  · intro env' hagree
    have hc : requiredTests.countP
          (fun p => !(run_aws_command env.world p.2 30).success)
        = requiredTests.countP
          (fun p => !(run_aws_command env'.world p.2 30).success) :=
      List.countP_congr (fun p hp => by
        unfold run_aws_command
        rw [hagree p hp])
    simp [check_permissions, hc]

/-- Witness for C10: in a world where every probe succeeds,
`check_permissions` returns true; and that world agrees with itself on
the required probes. -/
theorem C10_witness :
    (check_permissions
      { awsPath := some "/usr/bin/aws", envProfile := none,
        envDefaultRegion := none, hasAccessKeyId := false,
        hasSecretAccessKey := false, configFile := none,
        credentialsFile := none, world := fun _ _ => .completed 0 "" "",
        jload := fun _ => .error () }).val = true :=
  (C10_check_permissions
    { awsPath := some "/usr/bin/aws", envProfile := none,
      envDefaultRegion := none, hasAccessKeyId := false,
      hasSecretAccessKey := false, configFile := none,
      credentialsFile := none, world := fun _ _ => .completed 0 "" "",
      jload := fun _ => .error () }).1.mpr (fun _ _ => rfl)

/-! Helper lemmas for C6: when no output parses as JSON, each
JSON-consuming paragraph completes normally and degrades to a printed
error. -/

theorem discoverEcs_parse_fail (env : CheckEnv)
    (hj : ∀ s, env.jload s = .error ()) :
    (¬(run_aws_command env.world ecsClustersCmd 30).success = true →
      discoverEcs env = .ok () [ecsClustersCmd]
        [.raw "ECS Clusters:", .error "Failed to list ECS clusters"]) ∧
    ((run_aws_command env.world ecsClustersCmd 30).success = true →
      discoverEcs env = .ok () [ecsClustersCmd]
        [.raw "ECS Clusters:", .error "Failed to parse ECS clusters response"]) := by
  constructor <;> intro h
  · rw [Bool.not_eq_true] at h
    simp [discoverEcs, callAws, h, emit, pyTry, loads, hj, pyRaise]
  · simp [discoverEcs, callAws, h, emit, pyTry, loads, hj, pyRaise]

theorem discoverEc2_parse_fail (env : CheckEnv)
    (hj : ∀ s, env.jload s = .error ()) :
    (¬(run_aws_command env.world ec2InstancesCmd 30).success = true →
      discoverEc2 env = .ok () [ec2InstancesCmd]
        [.raw "", .raw "EC2 Instances (running):",
         .error "Failed to describe EC2 instances"]) ∧
    ((run_aws_command env.world ec2InstancesCmd 30).success = true →
      discoverEc2 env = .ok () [ec2InstancesCmd]
        [.raw "", .raw "EC2 Instances (running):",
         .error "Failed to parse EC2 instances response"]) := by
  constructor <;> intro h
  · rw [Bool.not_eq_true] at h
    simp [discoverEc2, callAws, h, emit, pyTry, loads, hj, pyRaise]
  · simp [discoverEc2, callAws, h, emit, pyTry, loads, hj, pyRaise]

theorem discoverLambda_parse_fail (env : CheckEnv)
    (hj : ∀ s, env.jload s = .error ()) :
    (¬(run_aws_command env.world lambdaFunctionsCmd 30).success = true →
      discoverLambda env = .ok () [lambdaFunctionsCmd]
        [.raw "", .raw "Lambda Functions:",
         .error "Failed to list Lambda functions"]) ∧
    ((run_aws_command env.world lambdaFunctionsCmd 30).success = true →
      discoverLambda env = .ok () [lambdaFunctionsCmd]
        [.raw "", .raw "Lambda Functions:",
         .error "Failed to parse Lambda functions response"]) := by
  constructor <;> intro h
  · rw [Bool.not_eq_true] at h
    simp [discoverLambda, callAws, h, emit, pyTry, loads, hj, pyRaise]
  · simp [discoverLambda, callAws, h, emit, pyTry, loads, hj, pyRaise]

theorem discoverElb_parse_fail (env : CheckEnv)
    (hj : ∀ s, env.jload s = .error ()) :
    (¬(run_aws_command env.world elbDescribeCmd 30).success = true →
      discoverElb env = .ok () [elbDescribeCmd]
        [.raw "", .raw "Load Balancers:",
         .error "Failed to describe load balancers"]) ∧
    ((run_aws_command env.world elbDescribeCmd 30).success = true →
      discoverElb env = .ok () [elbDescribeCmd]
        [.raw "", .raw "Load Balancers:",
         .error "Failed to parse load balancers response"]) := by
  constructor <;> intro h
  · rw [Bool.not_eq_true] at h
    simp [discoverElb, callAws, h, emit, pyTry, loads, hj, pyRaise]
  · simp [discoverElb, callAws, h, emit, pyTry, loads, hj, pyRaise]

theorem discoverRds_parse_fail (env : CheckEnv)
    (hj : ∀ s, env.jload s = .error ()) :
    (¬(run_aws_command env.world rdsInstancesCmd 30).success = true →
      discoverRds env = .ok () [rdsInstancesCmd]
        [.raw "", .raw "RDS Instances:",
         .error "Failed to describe RDS instances"]) ∧
    ((run_aws_command env.world rdsInstancesCmd 30).success = true →
      discoverRds env = .ok () [rdsInstancesCmd]
        [.raw "", .raw "RDS Instances:",
         .error "Failed to parse RDS instances response"]) := by
  constructor <;> intro h
  · rw [Bool.not_eq_true] at h
    simp [discoverRds, callAws, h, emit, pyTry, loads, hj, pyRaise]
  · simp [discoverRds, callAws, h, emit, pyTry, loads, hj, pyRaise]

theorem discover_services_parse_fail (env : CheckEnv)
    (hj : ∀ s, env.jload s = .error ()) :
    ∃ c o, discover_services env = .ok () c o ∧
      ((run_aws_command env.world ecsClustersCmd 30).success = true →
        Line.error "Failed to parse ECS clusters response" ∈ o) := by
  have h1 := discoverEcs_parse_fail env hj
  have h2 := discoverEc2_parse_fail env hj
  have h3 := discoverLambda_parse_fail env hj
  have h4 := discoverElb_parse_fail env hj
  have h5 := discoverRds_parse_fail env hj
  have e2 : ∃ o2, discoverEc2 env = .ok () [ec2InstancesCmd] o2 := by
    by_cases hs : (run_aws_command env.world ec2InstancesCmd 30).success = true
    · exact ⟨_, h2.2 hs⟩
    · exact ⟨_, h2.1 hs⟩
  have e3 : ∃ o3, discoverLambda env = .ok () [lambdaFunctionsCmd] o3 := by
    by_cases hs : (run_aws_command env.world lambdaFunctionsCmd 30).success = true
    · exact ⟨_, h3.2 hs⟩
    · exact ⟨_, h3.1 hs⟩
  have e4 : ∃ o4, discoverElb env = .ok () [elbDescribeCmd] o4 := by
    by_cases hs : (run_aws_command env.world elbDescribeCmd 30).success = true
    · exact ⟨_, h4.2 hs⟩
    · exact ⟨_, h4.1 hs⟩
  have e5 : ∃ o5, discoverRds env = .ok () [rdsInstancesCmd] o5 := by
    by_cases hs : (run_aws_command env.world rdsInstancesCmd 30).success = true
    · exact ⟨_, h5.2 hs⟩
    · exact ⟨_, h5.1 hs⟩
  obtain ⟨o2, he2⟩ := e2
  obtain ⟨o3, he3⟩ := e3
  obtain ⟨o4, he4⟩ := e4
  obtain ⟨o5, he5⟩ := e5
  have hd : discover_services env =
      PyRes.bind (emitHeader "Service Discovery") (fun _ =>
      PyRes.bind (discoverEcs env) (fun _ =>
      PyRes.bind (discoverEc2 env) (fun _ =>
      PyRes.bind (discoverLambda env) (fun _ =>
      PyRes.bind (discoverElb env) (fun _ => discoverRds env))))) := rfl
  by_cases hs : (run_aws_command env.world ecsClustersCmd 30).success = true
  · rw [h1.2 hs, he2, he3, he4, he5] at hd
    simp only [emitHeader, emit, PyRes.bind_ok, PyRes.prepend_ok,
      List.nil_append, List.cons_append, List.append_nil] at hd
    exact ⟨_, _, hd, fun _ => by simp⟩
  · rw [h1.1 hs, he2, he3, he4, he5] at hd
    simp only [emitHeader, emit, PyRes.bind_ok, PyRes.prepend_ok,
      List.nil_append, List.cons_append, List.append_nil] at hd
    exact ⟨_, _, hd, fun hc => absurd hc hs⟩

theorem check_identity_parse_fail (env : CheckEnv)
    (hj : ∀ s, env.jload s = .error ()) :
    ∃ o, check_identity env = .ok false [identityCmd] o ∧
      ((run_aws_command env.world identityCmd 30).success = true →
        Line.error "Invalid JSON response from AWS CLI" ∈ o) := by
  by_cases hs : (run_aws_command env.world identityCmd 30).success = true
  · refine ⟨[.header "AWS Identity", .error "Invalid JSON response from AWS CLI"],
      ?_, fun _ => ?_⟩
    · simp [check_identity, callAws, hs, emitHeader, emit, pyTry, loads, hj, pyRaise]
    · simp
  · rw [Bool.not_eq_true] at hs
    refine ⟨[.header "AWS Identity", .error "Failed to get caller identity",
        .raw (run_aws_command env.world identityCmd 30).stderr,
        .raw "\nCheck your credentials:", .raw "  aws configure",
        .raw "  aws configure --profile <profile-name>"],
      ?_, fun hc => by rw [hs] at hc; exact Bool.noConfusion hc⟩
    simp [check_identity, callAws, hs, emitHeader, emit, pyTry, loads, hj, pyRaise]

theorem get_ecs_metrics_parse_fail (menv : MetricsEnv) (cluster : String)
    (hours : Int) (hjm : ∀ s, menv.jload s = .error ()) :
    ∃ o, get_ecs_metrics menv cluster none hours =
        .ok 0 [ecsListServicesCmd cluster] o ∧
      ((run_aws_command menv.world (ecsListServicesCmd cluster) 60).success = true →
        Line.error "Failed to parse services response" ∈ o) := by
  by_cases hs :
      (run_aws_command menv.world (ecsListServicesCmd cluster) 60).success = true
  · refine ⟨[.header ("ECS Metrics: " ++ cluster), .raw "Services in cluster:",
        .error "Failed to parse services response", .raw "",
        .raw ("Usage: aws_metrics.py ecs " ++ cluster ++ " <service-name>")],
      ?_, fun _ => ?_⟩
    · simp [get_ecs_metrics, callAwsM, hs, emitHeader, emit, pyTry, loads, hjm,
        pyRaise, optStrTruthy]
    · simp
  · rw [Bool.not_eq_true] at hs
    refine ⟨[.header ("ECS Metrics: " ++ cluster), .raw "Services in cluster:",
        .error ("Failed to list services: "
          ++ (run_aws_command menv.world (ecsListServicesCmd cluster) 60).stderr),
        .raw "",
        .raw ("Usage: aws_metrics.py ecs " ++ cluster ++ " <service-name>")],
      ?_, fun hc => by rw [hs] at hc; exact Bool.noConfusion hc⟩
    simp [get_ecs_metrics, callAwsM, hs, emitHeader, emit, pyTry, loads, hjm,
      pyRaise, optStrTruthy]

/-- C6: when a successful command result's stdout is not valid JSON, the
JSON-parsing callers do not crash (they complete normally): the
`JSONDecodeError` is caught locally and converted to a printed error,
with `check_identity` returning false.  Stated for runs in which no
captured output parses as JSON. -/
theorem C6_invalid_json_handled (env : CheckEnv) (menv : MetricsEnv)
    (cluster : String) (hours : Int)
    (hj : ∀ s, env.jload s = .error ())
    (hjm : ∀ s, menv.jload s = .error ()) :
    (∃ o, check_identity env = .ok false [identityCmd] o ∧
      ((run_aws_command env.world identityCmd 30).success = true →
        Line.error "Invalid JSON response from AWS CLI" ∈ o)) ∧
    (∃ c o, discover_services env = .ok () c o ∧
      ((run_aws_command env.world ecsClustersCmd 30).success = true →
        Line.error "Failed to parse ECS clusters response" ∈ o)) ∧
    (∃ o, get_ecs_metrics menv cluster none hours =
        .ok 0 [ecsListServicesCmd cluster] o ∧
      ((run_aws_command menv.world (ecsListServicesCmd cluster) 60).success = true →
        Line.error "Failed to parse services response" ∈ o)) :=
  ⟨check_identity_parse_fail env hj,
   discover_services_parse_fail env hj,
   get_ecs_metrics_parse_fail menv cluster hours hjm⟩

/-- Witness for C6 at a concrete world whose commands all succeed with
non-JSON stdout. -/
theorem C6_witness :
    (∃ o, check_identity
        { awsPath := some "/usr/bin/aws", envProfile := none,
          envDefaultRegion := none, hasAccessKeyId := false,
          hasSecretAccessKey := false, configFile := none,
          credentialsFile := none,
          world := fun _ _ => .completed 0 "not json" "",
          jload := fun _ => .error () } = .ok false [identityCmd] o ∧
      Line.error "Invalid JSON response from AWS CLI" ∈ o) ∧
    (∃ o, get_ecs_metrics
        { world := fun _ _ => .completed 0 "not json" "",
          jload := fun _ => .error (), now := 1700000000, tempFile := "q" }
        "prod" none 1 = .ok 0 [ecsListServicesCmd "prod"] o ∧
      Line.error "Failed to parse services response" ∈ o) := by
  have h := C6_invalid_json_handled
    { awsPath := some "/usr/bin/aws", envProfile := none,
      envDefaultRegion := none, hasAccessKeyId := false,
      hasSecretAccessKey := false, configFile := none,
      credentialsFile := none,
      world := fun _ _ => .completed 0 "not json" "",
      jload := fun _ => .error () }
    { world := fun _ _ => .completed 0 "not json" "",
      jload := fun _ => .error (), now := 1700000000, tempFile := "q" }
    "prod" 1 (fun _ => rfl) (fun _ => rfl)
  obtain ⟨⟨o1, ho1, hm1⟩, -, ⟨o3, ho3, hm3⟩⟩ := h
  exact ⟨⟨o1, ho1, hm1 rfl⟩, ⟨o3, ho3, hm3 rfl⟩⟩

/-! Helpers for C3: the value a run terminates with (`none` when it dies
with an uncaught exception — the interpreter then exits non-zero with a
traceback instead of returning from `main`). -/

def PyRes.retVal {α : Type} : PyRes α → Option α
  | .ok v _ _ => some v
  | .exc _ _ _ => none

@[simp] theorem PyRes.retVal_ok {α : Type} (v : α) (c : List (List String))
    (o : List Line) : (PyRes.ok v c o).retVal = some v := rfl

@[simp] theorem PyRes.retVal_exc {α : Type} (e : PyExc) (c : List (List String))
    (o : List Line) : (PyRes.exc e c o : PyRes α).retVal = none := rfl

@[simp] theorem PyRes.retVal_prepend {α : Type} (c : List (List String))
    (o : List Line) (x : PyRes α) : (x.prepend c o).retVal = x.retVal := by
  cases x <;> rfl

@[simp] theorem PyRes.retVal_bind {α β : Type} (x : PyRes α) (f : α → PyRes β) :
    (PyRes.bind x f).retVal = x.retVal.bind (fun a => (f a).retVal) := by
  cases x <;> simp [PyRes.bind]

/-- C3 counterexample: in the metrics tool, `list AWS/EC2` with the binary
present but the query failing (exit code 255 from the CLI) terminates with
exit code 1 — a metric query failure that does not exit 0, and is neither
a missing CLI binary nor failed authentication. -/
theorem C3_counterexample :
    metricsMain
      { world := fun _ _ => .completed 255 "" "An error occurred",
        jload := fun _ => .error (), now := 1700000000, tempFile := "q" }
      (.list (some "AWS/EC2")) =
      .ok 1 [listMetricsCmd "AWS/EC2"]
        [.header "CloudWatch Metrics",
         .info "Listing metrics in namespace: AWS/EC2", .raw "",
         .error "Failed to list metrics: An error occurred"] := by
  rfl

theorem checkMain_cli_missing (env : CheckEnv) (cmd : CheckCmd)
    (h : (check_cli_installed env).val = false) :
    (checkMain env cmd).retVal = some 1 := by
  cases cmd <;> simp [checkMain, Eff.run, h]

theorem checkMain_identity_failed (env : CheckEnv) (cmd : CheckCmd)
    (hcli : (check_cli_installed env).val = true)
    (hid : (check_identity env).retVal = some false)
    (hc : cmd ≠ CheckCmd.config) :
    (checkMain env cmd).retVal = some 1 := by
  cases cmd <;> simp_all [checkMain, Eff.run, hcli, hid]

theorem checkMain_identity_ok (env : CheckEnv)
    (hcli : (check_cli_installed env).val = true)
    (hid : (check_identity env).retVal = some true) :
    (checkMain env .identity).retVal = some 0 ∧
    (checkMain env .permissions).retVal =
      some (if (check_permissions env).val then 0 else 1) ∧
    ((discover_services env).retVal = some () →
      (checkMain env .all).retVal = some 0 ∧
      (checkMain env .services).retVal = some 0) := by
  refine ⟨by simp [checkMain, Eff.run, hcli, hid], ?_, fun hds => ?_⟩
  · cases hp : (check_permissions env).val <;>
      simp [checkMain, Eff.run, hcli, hid, hp]
  · constructor <;> simp [checkMain, Eff.run, hcli, hid, hds]

theorem checkMain_config (env : CheckEnv) :
    (checkMain env .config).retVal =
      some (if (check_cli_installed env).val then 0 else 1) := by
  cases hcli : (check_cli_installed env).val <;>
    simp [checkMain, Eff.run, hcli]

theorem checkMain_zero_or_one (env : CheckEnv) (cmd : CheckCmd) (e : Int)
    (h : (checkMain env cmd).retVal = some e) : e = 0 ∨ e = 1 := by
  cases hcli : (check_cli_installed env).val
  · rw [checkMain_cli_missing env cmd hcli] at h
    exact Or.inr (Option.some_inj.mp h).symm
  · rcases hid : (check_identity env).retVal with - | b
    · cases cmd <;>
        simp [checkMain, Eff.run, hcli, hid] at h <;> omega
    · cases b
      · cases cmd <;>
          simp [checkMain, Eff.run, hcli, hid] at h <;> omega
      · rcases hds : (discover_services env).retVal with - | u
        · cases cmd <;>
            · cases hp : (check_permissions env).val <;>
                simp [checkMain, Eff.run, hcli, hid, hds, hp] at h <;> omega
        · cases cmd <;>
            · cases hp : (check_permissions env).val <;>
                simp [checkMain, Eff.run, hcli, hid, hds, hp] at h <;> omega

theorem metricsMain_trivial_zero (menv : MetricsEnv) :
    (metricsMain menv .noCommand).retVal = some 0 ∧
    (metricsMain menv (.list none)).retVal = some 0 := by
  constructor <;> simp [metricsMain, list_metrics, Eff.run, optStrTruthy]

theorem metricsMain_list (menv : MetricsEnv) (nsv : String) (hns : nsv ≠ "") :
    (metricsMain menv (.list (some nsv))).retVal =
      some (if (run_aws_command menv.world (listMetricsCmd nsv) 60).success
        then 0 else 1) := by
  cases h : (run_aws_command menv.world (listMetricsCmd nsv) 60).success <;>
    simp [metricsMain, list_metrics, Eff.run, optStrTruthy, hns, h]

theorem metricsMain_get (menv : MetricsEnv) (metric nsp : String)
    (dimension : Option (List Char)) (hours period : Int) :
    (metricsMain menv (.get metric nsp dimension hours period)).retVal =
      some (if (run_aws_command menv.world
          (getMetricCmd menv metric nsp (mainGetDims dimension).1
            (mainGetDims dimension).2 hours period) 60).success
        then 0 else 1) := by
  cases h : (run_aws_command menv.world
      (getMetricCmd menv metric nsp (mainGetDims dimension).1
        (mainGetDims dimension).2 hours period) 60).success <;>
    simp [metricsMain, get_metric, Eff.run, h]

theorem metricsMain_alarms (menv : MetricsEnv) (state : Option String) :
    (metricsMain menv (.alarms state)).retVal =
      some (if (run_aws_command menv.world (describeAlarmsCmd state) 60).success
        then 0 else 1) := by
  cases h : (run_aws_command menv.world (describeAlarmsCmd state) 60).success <;>
    simp [metricsMain, list_alarms, Eff.run, h]

/-- A run that can only terminate normally with value 0. -/
def alwaysZero (x : PyRes Int) : Prop :=
  ∀ e, x.retVal = some e → e = 0

theorem alwaysZero_ok0 (c : List (List String)) (o : List Line) :
    alwaysZero (.ok 0 c o) := by
  intro e h
  simpa using h.symm

theorem alwaysZero_bind {α : Type} (x : PyRes α) (f : α → PyRes Int)
    (hf : ∀ a, alwaysZero (f a)) : alwaysZero (PyRes.bind x f) := by
  intro e h
  rw [PyRes.retVal_bind] at h
  rcases Option.bind_eq_some.mp h with ⟨a, -, h2⟩
  exact hf a e h2

theorem alwaysZero_ite (c : Prop) [Decidable c] (t u : PyRes Int)
    (ht : alwaysZero t) (hu : alwaysZero u) :
    alwaysZero (if c then t else u) := by
  split <;> assumption

theorem metricsMain_ecs_zero (menv : MetricsEnv) (cluster : String)
    (service : Option String) (hours : Int) (e : Int)
    (h : (metricsMain menv (.ecs cluster service hours)).retVal = some e) :
    e = 0 := by
  refine (?_ : alwaysZero (metricsMain menv (.ecs cluster service hours))) e h
  simp only [metricsMain]
  unfold get_ecs_metrics
  refine alwaysZero_bind _ _ (fun _ => ?_)
  refine alwaysZero_ite _ _ _ ?_ ?_
  · refine alwaysZero_bind _ _ (fun _ => ?_)
    refine alwaysZero_bind _ _ (fun r => ?_)
    refine alwaysZero_ite _ _ _ ?_ ?_ <;>
    · repeat refine alwaysZero_bind _ _ (fun _ => ?_)
      exact alwaysZero_ok0 _ _
  · repeat refine alwaysZero_bind _ _ (fun _ => ?_)
    exact alwaysZero_ok0 _ _

theorem metricsMain_per_resource_zero (menv : MetricsEnv)
    (instance_id db_identifier : String) (hours : Int) :
    (metricsMain menv (.ec2 instance_id hours)).retVal = some 0 ∧
    (metricsMain menv (.rds db_identifier hours)).retVal = some 0 := by
  constructor <;>
    simp [metricsMain, get_ec2_metrics, get_rds_metrics, Eff.run]

theorem metricsMain_export (menv : MetricsEnv) (output_file : String)
    (hours : Int) :
    (metricsMain menv (.exportFile output_file hours)).retVal =
      some (if (run_aws_command menv.world (exportDataCmd menv hours) 120).success
        then 0 else 1) := by
  cases h : (run_aws_command menv.world (exportDataCmd menv hours) 120).success <;>
    simp [metricsMain, export_metrics, h]

/-- C3 (amended): on every normal termination the exit code is 0 or 1,
and exactly these cause exit 1: in the check tool a missing CLI binary,
a failed authentication (`check_identity` false), and — in the
`permissions` sub-command only — failed required permission probes; in
the metrics tool a failure of the sub-command's primary query
(`list`/`get`/`alarms`/`export`).  Everything else (permission probe
failures under `all`, per-metric failures in `ecs`/`ec2`/`rds`, alarm
count failures, parse failures inside discovery) leaves the exit code 0. -/
theorem C3_exit_code_characterisation (env : CheckEnv) (menv : MetricsEnv) :
    (∀ cmd, (check_cli_installed env).val = false →
      (checkMain env cmd).retVal = some 1) ∧
    (∀ cmd, (check_cli_installed env).val = true →
      (check_identity env).retVal = some false → cmd ≠ CheckCmd.config →
      (checkMain env cmd).retVal = some 1) ∧
    ((checkMain env .config).retVal =
      some (if (check_cli_installed env).val then 0 else 1)) ∧
    ((check_cli_installed env).val = true →
      (check_identity env).retVal = some true →
      (checkMain env .identity).retVal = some 0 ∧
      (checkMain env .permissions).retVal =
        some (if (check_permissions env).val then 0 else 1) ∧
      ((discover_services env).retVal = some () →
        (checkMain env .all).retVal = some 0 ∧
        (checkMain env .services).retVal = some 0)) ∧
    (∀ cmd e, (checkMain env cmd).retVal = some e → e = 0 ∨ e = 1) ∧
    ((metricsMain menv .noCommand).retVal = some 0) ∧
    ((metricsMain menv (.list none)).retVal = some 0) ∧
    (∀ nsv, nsv ≠ "" → (metricsMain menv (.list (some nsv))).retVal =
      some (if (run_aws_command menv.world (listMetricsCmd nsv) 60).success
        then 0 else 1)) ∧
    (∀ metric nsp dimension hours period,
      (metricsMain menv (.get metric nsp dimension hours period)).retVal =
        some (if (run_aws_command menv.world
            (getMetricCmd menv metric nsp (mainGetDims dimension).1
              (mainGetDims dimension).2 hours period) 60).success
          then 0 else 1)) ∧
    (∀ state, (metricsMain menv (.alarms state)).retVal =
      some (if (run_aws_command menv.world (describeAlarmsCmd state) 60).success
        then 0 else 1)) ∧
    (∀ cluster service hours e,
      (metricsMain menv (.ecs cluster service hours)).retVal = some e →
      e = 0) ∧
    (∀ instance_id hours,
      (metricsMain menv (.ec2 instance_id hours)).retVal = some 0) ∧
    (∀ db_identifier hours,
      (metricsMain menv (.rds db_identifier hours)).retVal = some 0) ∧
    (∀ output_file hours,
      (metricsMain menv (.exportFile output_file hours)).retVal =
        some (if (run_aws_command menv.world (exportDataCmd menv hours) 120).success
          then 0 else 1)) :=
  ⟨fun cmd h => checkMain_cli_missing env cmd h,
   fun cmd h1 h2 h3 => checkMain_identity_failed env cmd h1 h2 h3,
   checkMain_config env,
   fun h1 h2 => checkMain_identity_ok env h1 h2,
   fun cmd e h => checkMain_zero_or_one env cmd e h,
   (metricsMain_trivial_zero menv).1,
   (metricsMain_trivial_zero menv).2,
   fun nsv h => metricsMain_list menv nsv h,
   fun metric nsp dimension hours period =>
     metricsMain_get menv metric nsp dimension hours period,
   fun state => metricsMain_alarms menv state,
   fun cluster service hours e h =>
     metricsMain_ecs_zero menv cluster service hours e h,
   fun instance_id hours =>
     (metricsMain_per_resource_zero menv instance_id "db" hours).1,
   fun db_identifier hours =>
     (metricsMain_per_resource_zero menv "i" db_identifier hours).2,
   fun output_file hours => metricsMain_export menv output_file hours⟩

/-- Witness for C3 at concrete environments: with the binary absent the
check tool's `all` exits 1; with everything failing at the CLI level the
metrics tool's `ec2` sub-command still exits 0 while `list` exits 1. -/
theorem C3_witness :
    (checkMain
      { awsPath := none, envProfile := none, envDefaultRegion := none,
        hasAccessKeyId := false, hasSecretAccessKey := false,
        configFile := none, credentialsFile := none,
        world := fun _ _ => .fileNotFound,
        jload := fun _ => .error () } .all).retVal = some 1 ∧
    (metricsMain
      { world := fun _ _ => .completed 255 "" "err", jload := fun _ => .error (),
        now := 1700000000, tempFile := "q" } (.ec2 "i-1" 1)).retVal = some 0 ∧
    (metricsMain
      { world := fun _ _ => .completed 255 "" "err", jload := fun _ => .error (),
        now := 1700000000, tempFile := "q" } (.list (some "AWS/EC2"))).retVal =
      some 1 := by
  refine ⟨(C3_exit_code_characterisation
      { awsPath := none, envProfile := none, envDefaultRegion := none,
        hasAccessKeyId := false, hasSecretAccessKey := false,
        configFile := none, credentialsFile := none,
        world := fun _ _ => .fileNotFound,
        jload := fun _ => .error () }
      { world := fun _ _ => .completed 255 "" "err", jload := fun _ => .error (),
        now := 1700000000, tempFile := "q" }).1 .all rfl,
    (C3_exit_code_characterisation
      { awsPath := none, envProfile := none, envDefaultRegion := none,
        hasAccessKeyId := false, hasSecretAccessKey := false,
        configFile := none, credentialsFile := none,
        world := fun _ _ => .fileNotFound,
        jload := fun _ => .error () }
      { world := fun _ _ => .completed 255 "" "err", jload := fun _ => .error (),
        now := 1700000000, tempFile := "q" }).2.2.2.2.2.2.2.2.2.2.2.2.1 "i-1" 1,
    ?_⟩
  have h := (C3_exit_code_characterisation
      { awsPath := none, envProfile := none, envDefaultRegion := none,
        hasAccessKeyId := false, hasSecretAccessKey := false,
        configFile := none, credentialsFile := none,
        world := fun _ _ => .fileNotFound,
        jload := fun _ => .error () }
      { world := fun _ _ => .completed 255 "" "err", jload := fun _ => .error (),
        now := 1700000000, tempFile := "q" }).2.2.2.2.2.2.2.1 "AWS/EC2"
    (by decide)
  rw [h]
  rfl

end AwsToolkit
